import Mathlib

/-!
Shallow embedding of `src/scrape_market_images.py` (opinion-replay).

The program is a sequential scraper: for each configured topic id it
checks a JSON-file cache, otherwise issues one HTTP GET, extracts an
image URL from the returned markup (thumbnail `img`, then `og:image`
meta fallback), stores the result in the cache and rewrites the cache
file, sleeping a fixed delay after every non-cached id.

Modelling decisions:
- Markup is a list of elements in document order; `BeautifulSoup.find`
  becomes `List.find?` over that list.
- The network is a function `Nat → NetResult`; a `requests` timeout or
  connection error is a `NetResult` constructor, and since the Python
  code has no try/except around `requests.get`, such an outcome is an
  uncaught exception: `scrape_image` returns `Except.error` and the
  orchestrator loop aborts, carrying the state reached so far.
- The cache dict is an association list in insertion order; `save_cache`
  records each full rewrite of the file in `savedFiles`.
- `time.sleep(DELAY_SECONDS)` is modelled by adding `DELAY_SECONDS`
  time units to a counter; issued GET requests are recorded in `fetches`.
-/

namespace Scraper

/-- An element of the parsed markup: tag name plus attribute list. -/
structure Elem where
  tag : String
  attrs : List (String × String)
deriving DecidableEq

/-- A parsed document: its elements in document order. -/
abbrev Markup := List Elem

/-- Outcome of one HTTP GET: a response with status code and body, or a
request timeout, or a connection error (the latter two are raised as
exceptions by the `requests` library). -/
inductive NetResult where
  | response (status : Nat) (body : Markup)
  | timeout
  | connError
deriving DecidableEq

/-- The exception raised by `requests.get` when no response arrives. -/
inductive NetError where
  | timeout
  | connError
deriving DecidableEq

/-- Events printed by `scrape_image`. -/
inductive LogEvent where
  | scraping (url : String)
  | fetchFailed (status : Nat)
  | noImageFound
deriving DecidableEq

/-- The persisted cache: a mapping from stringified topic id to image
URL, kept in insertion order like a Python dict. -/
abbrev Cache := List (String × String)

-- ===== CONFIG (lines 7-18 of the source) =====

/-- `TOPIC_IDS` from the source configuration block. -/
def TOPIC_IDS : List Nat :=
  [3365, 3359, 1721, 3132, 2368, 2178, 1546, 3257, 3975, 3256,
   111, 2668, 2670, 3360, 1856, 3367, 279, 3369, 3861, 3361]

/-- `BASE_URL` from the source configuration block. -/
def BASE_URL : String := "https://app.opinion.trade/detail?topicId="

/-- `OUTPUT_FILE` from the source configuration block. -/
def OUTPUT_FILE : String := "market_images.json"

/-- `DELAY_SECONDS` from the source configuration block, in whole time
units. -/
def DELAY_SECONDS : Nat := 1

/-- The static `HEADERS` dict sent with every request. -/
def HEADERS : List (String × String) :=
  [("User-Agent", "Mozilla/5.0 (compatible; OpinionImageScraper/1.0)")]

-- ===== Cache store (lines 22-31) =====

/-- What reading `OUTPUT_FILE` can yield: the file is absent, the read
itself fails (e.g. permissions), or the file's text is returned. -/
inductive FileRead where
  | missing
  | readError (msg : String)
  | content (text : String)

/-- `load_cache`: `json.load` of the output file, returning `{}` only on
`FileNotFoundError`; a read error or a parse error (the `parse`
parameter abstracts `json.load`) propagates as an exception. -/
def load_cache (fs : FileRead) (parse : String → Except String Cache) :
    Except String Cache :=
  match fs with
  | .missing => .ok []
  | .readError msg => .error msg
  | .content text => parse text

-- ===== Image extraction (lines 42-55, inside scrape_image) =====

/-- `e.attrs.get(name)`: the attribute's value if present. -/
def getAttr (e : Elem) (name : String) : Option String :=
  e.attrs.lookup name

/-- `soup.find(tag, attr=val)`: the first element in document order with
the given tag whose attribute `attr` equals `val`. -/
def findElem (soup : Markup) (tag attr val : String) : Option Elem :=
  soup.find? (fun e => e.tag == tag && getAttr e attr == some val)

/-- Python truthiness of `elem and elem.get(a)`: the attribute value,
provided the element was found, the attribute exists and its value is a
non-empty string. -/
def attrIfTruthy (e : Option Elem) (a : String) : Option String :=
  match e with
  | none => none
  | some el =>
    match getAttr el a with
    | none => none
    | some s => if s = "" then none else some s

/-- The two-rule extraction of `scrape_image`: first the `img` element
with `alt="thumbnail"` and a truthy `src`, else the `meta` element with
`property="og:image"` and a truthy `content`, else no image. -/
def extract (soup : Markup) : Option String :=
  match attrIfTruthy (findElem soup "img" "alt" "thumbnail") "src" with
  | some s => some s
  | none =>
    match attrIfTruthy (findElem soup "meta" "property" "og:image") "content" with
    | some c => some c
    | none => none

-- ===== Page fetch + extraction: scrape_image (lines 33-55) =====

/-- `scrape_image(topic_id)`: issue the GET; a timeout/connection error
is an uncaught exception (`Except.error`); a non-200 status logs a
failure and returns `None`; otherwise the extraction result is
returned, logging a warning when no rule matched. The second component
is the log printed by the call. -/
def scrape_image (net : Nat → NetResult) (topic_id : Nat) :
    Except NetError (Option String) × List LogEvent :=
  let url := BASE_URL ++ toString topic_id
  match net topic_id with
  | .timeout => (.error .timeout, [.scraping url])
  | .connError => (.error .connError, [.scraping url])
  | .response status body =>
    if status ≠ 200 then
      (.ok none, [.scraping url, .fetchFailed status])
    else
      match extract body with
      | some u => (.ok (some u), [.scraping url])
      | none => (.ok none, [.scraping url, .noImageFound])

-- ===== Orchestrator (lines 57-75) =====

/-- The observable state of one run: the in-memory cache, every full
rewrite of the cache file performed so far (`save_cache` calls, in
order; the last one is the file on disk), the total time slept, and the
topic ids for which a GET was issued. -/
structure RunState where
  cache : Cache
  savedFiles : List Cache
  sleeps : Nat
  fetches : List Nat
deriving DecidableEq

/-- `save_cache(data)`: rewrite the whole file with the given mapping. -/
def save_cache (st : RunState) (data : Cache) : RunState :=
  { st with savedFiles := st.savedFiles ++ [data] }

/-- Python dict assignment `cache[key] = v`: replace the value in place
if the key is present, otherwise append the pair. -/
def cacheSet (c : Cache) (k v : String) : Cache :=
  if (c.lookup k).isSome then
    c.map (fun p => if p.1 == k then (p.1, v) else p)
  else
    c ++ [(k, v)]

/-- One iteration of the `for topic_id in TOPIC_IDS` loop: skip on cache
hit; otherwise fetch (recording the request), and on an uncaught
exception abort; on a truthy image URL insert it and save the file;
finally sleep. -/
def step (net : Nat → NetResult) (st : RunState) (topic_id : Nat) :
    Option NetError × RunState :=
  let key := toString topic_id
  if (st.cache.lookup key).isSome then
    (none, st)
  else
    let st := { st with fetches := st.fetches ++ [topic_id] }
    match (scrape_image net topic_id).1 with
    | .error e => (some e, st)
    | .ok none => (none, { st with sleeps := st.sleeps + DELAY_SECONDS })
    | .ok (some image_url) =>
      if image_url = "" then
        (none, { st with sleeps := st.sleeps + DELAY_SECONDS })
      else
        let cache := cacheSet st.cache key image_url
        (none, save_cache { st with
            cache := cache,
            sleeps := st.sleeps + DELAY_SECONDS } cache)

/-- The loop of `main` over a list of topic ids; an uncaught exception
aborts, returning the error and the state at the point of abort. -/
def runIds (net : Nat → NetResult) : List Nat → RunState → Option NetError × RunState
  | [], st => (none, st)
  | topic_id :: rest, st =>
    match step net st topic_id with
    | (some e, st') => (some e, st')
    | (none, st') => runIds net rest st'

/-- The initial run state for an in-memory cache loaded from disk. -/
def initState (c : Cache) : RunState :=
  { cache := c, savedFiles := [], sleeps := 0, fetches := [] }

/-- One whole orchestrator pass starting from loaded cache `c`. -/
def runOnce (net : Nat → NetResult) (c : Cache) : Option NetError × RunState :=
  runIds net TOPIC_IDS (initState c)

/-- `main()`: load the cache (a load failure propagates and aborts the
run before any request), then iterate over `TOPIC_IDS`. -/
def main (net : Nat → NetResult) (fs : FileRead)
    (parse : String → Except String Cache) :
    Except String (Option NetError × RunState) :=
  match load_cache fs parse with
  | .error e => .error e
  | .ok cache => .ok (runIds net TOPIC_IDS (initState cache))

-- ===== Concrete fixtures used by witnesses and counterexamples =====

/-- A page carrying both a thumbnail `img` (src `A`) and an `og:image`
meta (content `B`). -/
def pageBoth : Markup :=
  [⟨"img", [("alt", "thumbnail"), ("src", "https://cdn.example/img.png")]⟩,
   ⟨"meta", [("property", "og:image"), ("content", "https://cdn.example/og.png")]⟩]

/-- A network where every topic times out. -/
def netTimeout : Nat → NetResult := fun _ => NetResult.timeout

/-- A network where topic 3365 serves `pageBoth` with status 200 and
every other topic answers 404. -/
def netOne : Nat → NetResult := fun topic_id =>
  if topic_id = 3365 then NetResult.response 200 pageBoth
  else NetResult.response 404 []

-- ===== Association-list (Python dict) lemmas =====

/-- A key bound in the left part of an appended association list keeps
its value. -/
theorem lookup_append_left {c₁ : Cache} {k v : String} (h : c₁.lookup k = some v)
    (c₂ : Cache) : (c₁ ++ c₂).lookup k = some v := by
  induction c₁ with
  | nil => simp [List.lookup] at h
  | cons p t ih =>
    obtain ⟨k', v'⟩ := p
    cases hk : k == k' <;> simp [List.lookup, hk] at h ⊢
    · exact ih h
    · exact h

/-- A key unbound in the left part of an appended association list is
looked up in the right part. -/
theorem lookup_append_right {c₁ : Cache} {k : String} (h : c₁.lookup k = none)
    (c₂ : Cache) : (c₁ ++ c₂).lookup k = c₂.lookup k := by
  induction c₁ with
  | nil => simp
  | cons p t ih =>
    obtain ⟨k', v'⟩ := p
    cases hk : k == k' <;> simp only [List.cons_append, List.lookup, hk] at h ⊢
    · exact ih h
    · cases h

/-- Inversion of lookup over an appended association list. -/
theorem lookup_append_inv {c₁ c₂ : Cache} {k v : String}
    (h : (c₁ ++ c₂).lookup k = some v) :
    c₁.lookup k = some v ∨ (c₁.lookup k = none ∧ c₂.lookup k = some v) := by
  cases hc : c₁.lookup k with
  | none => exact Or.inr ⟨rfl, by rwa [lookup_append_right hc c₂] at h⟩
  | some w => rw [lookup_append_left hc c₂] at h; exact Or.inl h

/-- Appending a fresh binding makes it visible. -/
theorem lookup_snoc_self {c : Cache} {k : String} (h : c.lookup k = none)
    (v : String) : (c ++ [(k, v)]).lookup k = some v := by
  rw [lookup_append_right h]
  simp [List.lookup]

/-- A successful lookup in a singleton association list returns its
value. -/
theorem lookup_singleton_inv {k k' v v' : String}
    (h : ([(k', v')] : Cache).lookup k = some v) : v = v' := by
  cases hk : k == k' <;> simp [List.lookup, hk] at h
  exact h.symm

/-- If an appended list misses a key, so does its left part. -/
theorem lookup_none_of_append {c₁ c₂ : Cache} {k : String}
    (h : (c₁ ++ c₂).lookup k = none) : c₁.lookup k = none := by
  cases hc : c₁.lookup k with
  | none => rfl
  | some v => rw [lookup_append_left hc c₂] at h; cases h

/-- Python dict assignment at an absent key appends the pair. -/
theorem cacheSet_absent {c : Cache} {k : String} (h : c.lookup k = none)
    (v : String) : cacheSet c k v = c ++ [(k, v)] := by
  simp [cacheSet, h]

-- ===== Step-level characterization of the loop body =====

/-- The fetch completed with a response but yielded nothing to store:
either no image was extracted (non-200 or no matching rule), or the
extracted URL is the empty string, which Python treats as falsy. -/
def unresolvedFetch (net : Nat → NetResult) (topic_id : Nat) : Prop :=
  (scrape_image net topic_id).1 = .ok none ∨
  (scrape_image net topic_id).1 = .ok (some "")

/-- Cache hit: the iteration is a no-op on the whole state. -/
theorem step_cached (net : Nat → NetResult) {st : RunState} {topic_id : Nat}
    (h : (st.cache.lookup (toString topic_id)).isSome = true) :
    step net st topic_id = (none, st) := by
  simp [step, h]

/-- Uncaught exception from the fetch: the iteration aborts after
recording the request; cache, saved files and sleeps are untouched. -/
theorem step_error (net : Nat → NetResult) {st : RunState} {topic_id : Nat}
    {e : NetError} (h : st.cache.lookup (toString topic_id) = none)
    (hs : (scrape_image net topic_id).1 = .error e) :
    step net st topic_id = (some e, { st with fetches := st.fetches ++ [topic_id] }) := by
  simp [step, h, hs]

/-- Fetch completed but nothing was stored: the iteration records the
request and sleeps; cache and saved files are untouched. -/
theorem step_unresolved (net : Nat → NetResult) {st : RunState} {topic_id : Nat}
    (h : st.cache.lookup (toString topic_id) = none)
    (hs : unresolvedFetch net topic_id) :
    step net st topic_id = (none,
      { st with fetches := st.fetches ++ [topic_id],
                sleeps := st.sleeps + DELAY_SECONDS }) := by
  rcases hs with hs | hs <;> simp [step, h, hs]

/-- Fetch and extraction succeeded with a truthy URL: the iteration
appends the new binding, rewrites the cache file with the new mapping,
records the request and sleeps. -/
theorem step_resolved (net : Nat → NetResult) {st : RunState} {topic_id : Nat}
    {u : String} (h : st.cache.lookup (toString topic_id) = none)
    (hs : (scrape_image net topic_id).1 = .ok (some u)) (hu : u ≠ "") :
    step net st topic_id = (none,
      { cache := st.cache ++ [(toString topic_id, u)],
        savedFiles := st.savedFiles ++ [st.cache ++ [(toString topic_id, u)]],
        sleeps := st.sleeps + DELAY_SECONDS,
        fetches := st.fetches ++ [topic_id] }) := by
  simp [step, h, hs, hu, save_cache, cacheSet_absent h]

/-- Every iteration of the loop body falls into exactly one of the four
behaviours: cache hit, uncaught exception, completed-but-unresolved
fetch, or resolution with a truthy URL. -/
theorem step_classify (net : Nat → NetResult) (st : RunState) (topic_id : Nat) :
    ((st.cache.lookup (toString topic_id)).isSome = true ∧
      step net st topic_id = (none, st)) ∨
    (st.cache.lookup (toString topic_id) = none ∧
      ((∃ e, step net st topic_id =
          (some e, { st with fetches := st.fetches ++ [topic_id] })) ∨
       (unresolvedFetch net topic_id ∧ step net st topic_id =
          (none, { st with fetches := st.fetches ++ [topic_id],
                           sleeps := st.sleeps + DELAY_SECONDS })) ∨
       (∃ u, u ≠ "" ∧ (scrape_image net topic_id).1 = .ok (some u) ∧
          step net st topic_id = (none,
            { cache := st.cache ++ [(toString topic_id, u)],
              savedFiles := st.savedFiles ++ [st.cache ++ [(toString topic_id, u)]],
              sleeps := st.sleeps + DELAY_SECONDS,
              fetches := st.fetches ++ [topic_id] })))) := by
  cases hcase : st.cache.lookup (toString topic_id) with
  | some v =>
    have hsome : (st.cache.lookup (toString topic_id)).isSome = true := by
      rw [hcase]; rfl
    exact Or.inl ⟨rfl, step_cached net hsome⟩
  | none =>
    refine Or.inr ⟨rfl, ?_⟩
    cases hscr : (scrape_image net topic_id).1 with
    | error e => exact Or.inl ⟨e, step_error net hcase hscr⟩
    | ok r =>
      cases r with
      | none =>
        exact Or.inr (Or.inl ⟨Or.inl hscr, step_unresolved net hcase (Or.inl hscr)⟩)
      | some u =>
        by_cases hu : u = ""
        · subst hu
          exact Or.inr (Or.inl ⟨Or.inr hscr, step_unresolved net hcase (Or.inr hscr)⟩)
        · exact Or.inr (Or.inr ⟨u, hu, rfl, step_resolved net hcase hscr hu⟩)

/-- One loop iteration never loses an existing cache binding. -/
theorem step_cache_mono (net : Nat → NetResult) (st : RunState) (topic_id : Nat)
    {k v : String} (h : st.cache.lookup k = some v) :
    ((step net st topic_id).2.cache).lookup k = some v := by
  rcases step_classify net st topic_id with ⟨_, hstep⟩ |
    ⟨_, ⟨e, hstep⟩ | ⟨_, hstep⟩ | ⟨u, _, _, hstep⟩⟩ <;> rw [hstep]
  · exact h
  · exact h
  · exact h
  · exact lookup_append_left h _

-- ===== Reduction lemmas for the loop =====

/-- Unfolding one iteration of the loop. -/
theorem runIds_cons (net : Nat → NetResult) (topic_id : Nat) (rest : List Nat)
    (st : RunState) :
    runIds net (topic_id :: rest) st =
      match step net st topic_id with
      | (some e, st') => (some e, st')
      | (none, st') => runIds net rest st' := rfl

/-- An aborting iteration ends the run at once. -/
theorem runIds_cons_error {net : Nat → NetResult} {st st' : RunState}
    {topic_id : Nat} {e : NetError} (rest : List Nat)
    (h : step net st topic_id = (some e, st')) :
    runIds net (topic_id :: rest) st = (some e, st') := by
  rw [runIds_cons, h]

/-- A non-aborting iteration continues the run on the updated state. -/
theorem runIds_cons_ok {net : Nat → NetResult} {st st' : RunState}
    {topic_id : Nat} (rest : List Nat)
    (h : step net st topic_id = (none, st')) :
    runIds net (topic_id :: rest) st = runIds net rest st' := by
  rw [runIds_cons, h]

-- ===== Run-level invariants =====

/-- The loop never loses an existing cache binding, whether it completes
or aborts. -/
theorem runIds_cache_mono (net : Nat → NetResult) (ids : List Nat) :
    ∀ (st : RunState) (k v : String), st.cache.lookup k = some v →
      (((runIds net ids st).2.cache).lookup k = some v) := by
  induction ids with
  | nil => intro st k v h; exact h
  | cons i rest ih =>
    intro st k v h
    rcases step_classify net st i with ⟨_, hstep⟩ |
      ⟨_, ⟨e, hstep⟩ | ⟨_, hstep⟩ | ⟨u, _, _, hstep⟩⟩
    · rw [runIds_cons_ok rest hstep]; exact ih st k v h
    · rw [runIds_cons_error rest hstep]; exact h
    · rw [runIds_cons_ok rest hstep]; exact ih _ k v h
    · rw [runIds_cons_ok rest hstep]
      exact ih _ k v (lookup_append_left h _)

/-- Every cache file written during the loop extends the cache the loop
started from: no binding present at the start is removed or altered in
any file rewrite. -/
theorem runIds_savedFiles (net : Nat → NetResult) (ids : List Nat) :
    ∀ (st : RunState) (s : Cache), s ∈ (runIds net ids st).2.savedFiles →
      s ∈ st.savedFiles ∨
      ∀ k v, st.cache.lookup k = some v → s.lookup k = some v := by
  induction ids with
  | nil => intro st s hs; exact Or.inl hs
  | cons i rest ih =>
    intro st s hs
    rcases step_classify net st i with ⟨_, hstep⟩ |
      ⟨_, ⟨e, hstep⟩ | ⟨_, hstep⟩ | ⟨u, _, _, hstep⟩⟩
    · rw [runIds_cons_ok rest hstep] at hs; exact ih st s hs
    · rw [runIds_cons_error rest hstep] at hs; exact Or.inl hs
    · rw [runIds_cons_ok rest hstep] at hs
      exact ih { st with fetches := st.fetches ++ [i],
                         sleeps := st.sleeps + DELAY_SECONDS } s hs
    · rw [runIds_cons_ok rest hstep] at hs
      rcases ih _ s hs with hmem | hext
      · rcases List.mem_append.mp hmem with hmem' | hmem'
        · exact Or.inl hmem'
        · refine Or.inr (fun k v hv => ?_)
          rcases List.mem_singleton.mp hmem' with rfl
          exact lookup_append_left hv _
      · refine Or.inr (fun k v hv => ?_)
        exact hext k v (lookup_append_left hv _)

/-- Every topic id for which the loop issued a request was absent from
the cache the loop started from. -/
theorem runIds_fetches (net : Nat → NetResult) (ids : List Nat) :
    ∀ (st : RunState) (i : Nat), i ∈ (runIds net ids st).2.fetches →
      i ∈ st.fetches ∨ st.cache.lookup (toString i) = none := by
  induction ids with
  | nil => intro st i hi; exact Or.inl hi
  | cons j rest ih =>
    intro st i hi
    rcases step_classify net st j with ⟨_, hstep⟩ |
      ⟨hnone, ⟨e, hstep⟩ | ⟨_, hstep⟩ | ⟨u, _, _, hstep⟩⟩
    · rw [runIds_cons_ok rest hstep] at hi; exact ih st i hi
    · rw [runIds_cons_error rest hstep] at hi
      rcases List.mem_append.mp hi with hmem | hmem
      · exact Or.inl hmem
      · rcases List.mem_singleton.mp hmem with rfl; exact Or.inr hnone
    · rw [runIds_cons_ok rest hstep] at hi
      rcases ih _ i hi with hmem | hnone'
      · rcases List.mem_append.mp hmem with hmem' | hmem'
        · exact Or.inl hmem'
        · rcases List.mem_singleton.mp hmem' with rfl; exact Or.inr hnone
      · exact Or.inr hnone'
    · rw [runIds_cons_ok rest hstep] at hi
      rcases ih _ i hi with hmem | hnone'
      · rcases List.mem_append.mp hmem with hmem' | hmem'
        · exact Or.inl hmem'
        · rcases List.mem_singleton.mp hmem' with rfl; exact Or.inr hnone
      · exact Or.inr (lookup_none_of_append hnone')

/-- If the loop completed without an exception, every visited topic id
is either bound in the final cache or its fetch completed without
anything to store. -/
theorem runIds_complete (net : Nat → NetResult) (ids : List Nat) :
    ∀ st : RunState, (runIds net ids st).1 = none →
      ∀ i ∈ ids, ((((runIds net ids st).2.cache).lookup (toString i)).isSome = true) ∨
        unresolvedFetch net i := by
  induction ids with
  | nil => intro st _ i hi; cases hi
  | cons j rest ih =>
    intro st hdone i hi
    rcases step_classify net st j with ⟨hsome, hstep⟩ |
      ⟨hnone, ⟨e, hstep⟩ | ⟨hun, hstep⟩ | ⟨u, hu, hscr, hstep⟩⟩
    · rw [runIds_cons_ok rest hstep] at hdone ⊢
      rcases List.mem_cons.mp hi with rfl | hmem
      · rcases Option.isSome_iff_exists.mp hsome with ⟨v, hv⟩
        exact Or.inl (by rw [runIds_cache_mono net rest st _ v hv]; rfl)
      · exact ih st hdone i hmem
    · rw [runIds_cons_error rest hstep] at hdone; cases hdone
    · rw [runIds_cons_ok rest hstep] at hdone ⊢
      rcases List.mem_cons.mp hi with rfl | hmem
      · exact Or.inr hun
      · exact ih _ hdone i hmem
    · rw [runIds_cons_ok rest hstep] at hdone ⊢
      rcases List.mem_cons.mp hi with rfl | hmem
      · refine Or.inl ?_
        have hv := lookup_snoc_self hnone u
        rw [runIds_cache_mono net rest _ _ u hv]; rfl
      · exact ih _ hdone i hmem

/-- A run in which every topic id is either already cached or fetches
nothing storable completes without exception and changes neither the
in-memory cache nor the cache file. -/
theorem runIds_noop (net : Nat → NetResult) (ids : List Nat) :
    ∀ st : RunState,
      (∀ i ∈ ids, ((st.cache.lookup (toString i)).isSome = true) ∨ unresolvedFetch net i) →
      (runIds net ids st).1 = none ∧
      (runIds net ids st).2.cache = st.cache ∧
      (runIds net ids st).2.savedFiles = st.savedFiles := by
  induction ids with
  | nil => intro st _; exact ⟨rfl, rfl, rfl⟩
  | cons j rest ih =>
    intro st h
    cases hcase : st.cache.lookup (toString j) with
    | some v =>
      have hsome : (st.cache.lookup (toString j)).isSome = true := by rw [hcase]; rfl
      have hstep := step_cached net hsome
      rw [runIds_cons_ok rest hstep]
      exact ih st (fun i hi => h i (List.mem_cons_of_mem j hi))
    | none =>
      have hun : unresolvedFetch net j := by
        rcases h j (List.mem_cons_self j rest) with hsome | hun
        · rw [hcase] at hsome; cases hsome
        · exact hun
      have hstep := step_unresolved net hcase hun
      rw [runIds_cons_ok rest hstep]
      have := ih { st with fetches := st.fetches ++ [j],
                           sleeps := st.sleeps + DELAY_SECONDS }
        (fun i hi => h i (List.mem_cons_of_mem j hi))
      exact this

/-- The loop started on a cache satisfying the value property keeps it:
every binding of the final cache was either present initially or has a
non-empty value. -/
theorem runIds_values (net : Nat → NetResult) (ids : List Nat) :
    ∀ (st : RunState) (c₀ : Cache),
      (∀ k v, st.cache.lookup k = some v → c₀.lookup k = some v ∨ v ≠ "") →
      ∀ k v, (((runIds net ids st).2.cache).lookup k = some v) →
        c₀.lookup k = some v ∨ v ≠ "" := by
  induction ids with
  | nil => intro st c₀ hinv k v h; exact hinv k v h
  | cons j rest ih =>
    intro st c₀ hinv k v h
    rcases step_classify net st j with ⟨_, hstep⟩ |
      ⟨_, ⟨e, hstep⟩ | ⟨_, hstep⟩ | ⟨u, hu, _, hstep⟩⟩
    · rw [runIds_cons_ok rest hstep] at h; exact ih st c₀ hinv k v h
    · rw [runIds_cons_error rest hstep] at h; exact hinv k v h
    · rw [runIds_cons_ok rest hstep] at h
      exact ih { st with fetches := st.fetches ++ [j],
                         sleeps := st.sleeps + DELAY_SECONDS } c₀ hinv k v h
    · rw [runIds_cons_ok rest hstep] at h
      refine ih _ c₀ (fun k' v' h' => ?_) k v h
      rcases lookup_append_inv h' with hleft | ⟨_, hright⟩
      · exact hinv k' v' hleft
      · rcases lookup_singleton_inv hright with rfl
        exact Or.inr hu

/-- A response never raises: with a status in hand, the fetch path of
the source returns normally (possibly with no image). -/
theorem scrape_response_ok (net : Nat → NetResult) (topic_id status : Nat)
    (body : Markup) (hnet : net topic_id = NetResult.response status body) :
    ∃ r, (scrape_image net topic_id).1 = .ok r := by
  by_cases hs : status = 200
  · subst hs
    cases hext : extract body with
    | none => exact ⟨none, by simp [scrape_image, hnet, hext]⟩
    | some u => exact ⟨some u, by simp [scrape_image, hnet, hext]⟩
  · exact ⟨none, by simp [scrape_image, hnet, hs]⟩

/-- The truthiness filter never lets an empty attribute value through. -/
theorem attrIfTruthy_ne_empty (e : Option Elem) (a : String) :
    attrIfTruthy e a ≠ some "" := by
  cases e with
  | none => simp [attrIfTruthy]
  | some el =>
    cases hg : getAttr el a with
    | none => simp [attrIfTruthy, hg]
    | some s => by_cases hs : s = "" <;> simp [attrIfTruthy, hg, hs]

/-- Extraction never returns the empty string: both rules check the
attribute for truthiness before returning it. -/
theorem extract_ne_empty (soup : Markup) : extract soup ≠ some "" := by
  intro hc
  unfold extract at hc
  cases h1 : attrIfTruthy (findElem soup "img" "alt" "thumbnail") "src" with
  | some s =>
    rw [h1] at hc
    simp at hc
    exact attrIfTruthy_ne_empty _ "src" (by rw [h1, hc])
  | none =>
    rw [h1] at hc
    cases h2 : attrIfTruthy (findElem soup "meta" "property" "og:image") "content" with
    | some s =>
      rw [h2] at hc
      simp at hc
      exact attrIfTruthy_ne_empty _ "content" (by rw [h2, hc])
    | none => rw [h2] at hc; exact Option.noConfusion hc

-- ===== Claims =====

/-- Claim C1, counterexample: a fetch that ends in a timeout is NOT
treated like a non-200 response. On a network where topic 3365 times
out, the fetch operation propagates the exception (its result is an
error, not the caught no-image outcome), and the whole run aborts at
the very first identifier: no other topic of the configured list is
visited. -/
theorem c1_counterexample :
    (scrape_image netTimeout 3365).1 = .error NetError.timeout ∧
    (scrape_image netTimeout 3365).1 ≠ .ok none ∧
    runOnce netTimeout [] =
      (some NetError.timeout,
       { cache := [], savedFiles := [], sleeps := 0, fetches := [3365] }) := by
  refine ⟨rfl, fun h => Except.noConfusion h, rfl⟩

/-- Claim C1 (amended): a request timeout or connection error is not
caught by the fetch operation: the exception propagates out of
`scrape_image`, the run aborts at that identifier with the cache, the
cache file and the sleep counter unchanged (only the issued request is
recorded), and no later identifier is processed. The topic never enters
the cache. Only non-200 responses are handled as a logged, non-fatal
fetch failure. -/
theorem c1_uncaught_timeout (net : Nat → NetResult) (st : RunState)
    (topic_id : Nat) (rest : List Nat)
    (hnet : net topic_id = NetResult.timeout ∨ net topic_id = NetResult.connError)
    (hc : st.cache.lookup (toString topic_id) = none) :
    ∃ e : NetError, (scrape_image net topic_id).1 = .error e ∧
      runIds net (topic_id :: rest) st =
        (some e, { st with fetches := st.fetches ++ [topic_id] }) := by
  rcases hnet with hnet | hnet
  · have hscr : (scrape_image net topic_id).1 = .error NetError.timeout := by
      simp [scrape_image, hnet]
    exact ⟨NetError.timeout, hscr, runIds_cons_error rest (step_error net hc hscr)⟩
  · have hscr : (scrape_image net topic_id).1 = .error NetError.connError := by
      simp [scrape_image, hnet]
    exact ⟨NetError.connError, hscr, runIds_cons_error rest (step_error net hc hscr)⟩

/-- Witness for the amended C1 at a concrete input. -/
theorem c1_uncaught_timeout_witness :
    ((netTimeout 3365 = NetResult.timeout ∨ netTimeout 3365 = NetResult.connError) ∧
     (initState []).cache.lookup (toString 3365) = none) ∧
    ∃ e : NetError, (scrape_image netTimeout 3365).1 = .error e ∧
      runIds netTimeout (3365 :: [3359]) (initState []) =
        (some e, { initState [] with fetches := (initState []).fetches ++ [3365] }) :=
  ⟨⟨Or.inl rfl, rfl⟩,
   c1_uncaught_timeout netTimeout (initState []) 3365 [3359] (Or.inl rfl) rfl⟩

/-- Claim C2: when the markup's first thumbnail image has a non-empty
source A and an og:image meta with non-empty content B is also present,
extraction returns A; rule 1 short-circuits rule 2, so B is never
returned when it differs from A. -/
theorem c2_fallback_ordering (soup : Markup) (img og : Elem) (A B : String)
    (himg : findElem soup "img" "alt" "thumbnail" = some img)
    (hsrc : getAttr img "src" = some A) (hA : A ≠ "")
    (hog : findElem soup "meta" "property" "og:image" = some og)
    (hcontent : getAttr og "content" = some B) (hB : B ≠ "") :
    extract soup = some A ∧ (A ≠ B → extract soup ≠ some B) := by
  have hex : extract soup = some A := by
    unfold extract
    rw [himg]
    simp [attrIfTruthy, hsrc, hA]
  refine ⟨hex, fun hAB hBad => hAB ?_⟩
  rw [hex] at hBad
  exact Option.some.inj hBad

/-- Witness for C2 on a concrete page holding both elements. -/
theorem c2_fallback_ordering_witness :
    (findElem pageBoth "img" "alt" "thumbnail" =
      some ⟨"img", [("alt", "thumbnail"), ("src", "https://cdn.example/img.png")]⟩) ∧
    extract pageBoth = some "https://cdn.example/img.png" :=
  ⟨by decide,
   (c2_fallback_ordering pageBoth
      ⟨"img", [("alt", "thumbnail"), ("src", "https://cdn.example/img.png")]⟩
      ⟨"meta", [("property", "og:image"), ("content", "https://cdn.example/og.png")]⟩
      "https://cdn.example/img.png" "https://cdn.example/og.png"
      (by decide) (by decide) (by decide) (by decide) (by decide) (by decide)).1⟩

/-- Claim C3: a key present in the cache is never overwritten — one
iteration preserves every existing binding, a whole run preserves every
binding of the loaded cache — and every topic id for which a request
was issued during the run was absent from the loaded cache, so cached
topics are never re-fetched. -/
theorem c3_append_only (net : Nat → NetResult) (st : RunState) (topic_id : Nat)
    (c : Cache) (k v : String) :
    (st.cache.lookup k = some v → ((step net st topic_id).2.cache).lookup k = some v) ∧
    (c.lookup k = some v → ((runOnce net c).2.cache).lookup k = some v) ∧
    (∀ i ∈ (runOnce net c).2.fetches, c.lookup (toString i) = none) := by
  refine ⟨fun h => step_cache_mono net st topic_id h,
          fun h => runIds_cache_mono net TOPIC_IDS (initState c) k v h,
          fun i hi => ?_⟩
  rcases runIds_fetches net TOPIC_IDS (initState c) i hi with hmem | hnone
  · exact absurd hmem (List.not_mem_nil i)
  · exact hnone

/-- Witness for C3: a pre-cached key survives a full run unchanged. -/
theorem c3_append_only_witness :
    ([("3361", "kept")] : Cache).lookup "3361" = some "kept" ∧
    ((runOnce netOne [("3361", "kept")]).2.cache).lookup "3361" = some "kept" :=
  ⟨by decide,
   (c3_append_only netOne (initState []) 3365 [("3361", "kept")] "3361" "kept").2.1
     (by decide)⟩

/-- Claim C4: with network responses held constant, a second run after a
completed run completes without exception, leaves the cache exactly as
the first run left it, never rewrites the cache file (so the file on
disk is identical), and issues no request for any topic bound in the
cache after the first run. -/
theorem c4_idempotence (net : Nat → NetResult) (c : Cache)
    (h : (runOnce net c).1 = none) :
    (runOnce net (runOnce net c).2.cache).1 = none ∧
    (runOnce net (runOnce net c).2.cache).2.cache = (runOnce net c).2.cache ∧
    (runOnce net (runOnce net c).2.cache).2.savedFiles = [] ∧
    ∀ i ∈ TOPIC_IDS, (((runOnce net c).2.cache).lookup (toString i)).isSome = true →
      i ∉ (runOnce net (runOnce net c).2.cache).2.fetches := by
  have hres := runIds_complete net TOPIC_IDS (initState c) h
  have hnoop := runIds_noop net TOPIC_IDS (initState (runOnce net c).2.cache) hres
  refine ⟨hnoop.1, hnoop.2.1, hnoop.2.2, fun i hi hsome hfetch => ?_⟩
  rcases runIds_fetches net TOPIC_IDS (initState (runOnce net c).2.cache) i hfetch with
    hmem | hnone
  · exact absurd hmem (List.not_mem_nil i)
  · have hnone' : ((runOnce net c).2.cache).lookup (toString i) = none := hnone
    rw [hnone'] at hsome
    cases hsome

/-- Witness for C4 on a concrete network: the first run completes, and
the second run writes no cache file. -/
theorem c4_idempotence_witness :
    (runOnce netOne []).1 = none ∧
    (runOnce netOne (runOnce netOne []).2.cache).2.savedFiles = [] :=
  ⟨by decide, (c4_idempotence netOne [] (by decide)).2.2.1⟩

/-- Claim C5: loading the cache returns the empty mapping when the file
is missing; a read failure or a parse failure is not handled — it
propagates out of the cache load, and through `main`, aborting the run. -/
theorem c5_load_failures (net : Nat → NetResult)
    (parse : String → Except String Cache) (text e msg : String)
    (hp : parse text = .error e) :
    load_cache FileRead.missing parse = .ok [] ∧
    load_cache (FileRead.readError msg) parse = .error msg ∧
    load_cache (FileRead.content text) parse = .error e ∧
    main net (FileRead.content text) parse = .error e := by
  refine ⟨rfl, rfl, hp, ?_⟩
  simp [main, load_cache, hp]

/-- A parse function that always fails, standing for json.load on a
corrupt file. -/
def parseFailing : String → Except String Cache := fun _ => .error "invalid JSON"

/-- Witness for C5: a present-but-unparsable file aborts the run. -/
theorem c5_load_failures_witness :
    parseFailing "not json" = .error "invalid JSON" ∧
    main netOne (FileRead.content "not json") parseFailing = .error "invalid JSON" :=
  ⟨rfl,
   (c5_load_failures netOne parseFailing "not json" "invalid JSON" "denied" rfl).2.2.2⟩

/-- Claim C6: a non-200 response makes the fetch return no image while
logging the failure with its status code; the iteration does not abort,
does not touch the in-memory cache and does not rewrite the cache file,
so the identifier stays absent and eligible for retry. -/
theorem c6_non200 (net : Nat → NetResult) (st : RunState)
    (topic_id status : Nat) (body : Markup)
    (hnet : net topic_id = NetResult.response status body) (hs : status ≠ 200)
    (hc : st.cache.lookup (toString topic_id) = none) :
    (scrape_image net topic_id).1 = .ok none ∧
    LogEvent.fetchFailed status ∈ (scrape_image net topic_id).2 ∧
    (step net st topic_id).1 = none ∧
    (step net st topic_id).2.cache = st.cache ∧
    (step net st topic_id).2.savedFiles = st.savedFiles := by
  have h1 : (scrape_image net topic_id).1 = .ok none := by
    simp [scrape_image, hnet, hs]
  have h2 : LogEvent.fetchFailed status ∈ (scrape_image net topic_id).2 := by
    simp [scrape_image, hnet, hs]
  rw [step_unresolved net hc (Or.inl h1)]
  exact ⟨h1, h2, rfl, rfl, rfl⟩

/-- Witness for C6: topic 3359 answers 404 on the concrete network. -/
theorem c6_non200_witness :
    netOne 3359 = NetResult.response 404 [] ∧
    (scrape_image netOne 3359).1 = .ok none ∧
    (step netOne (initState []) 3359).2.cache = [] := by
  have h := c6_non200 netOne (initState []) 3359 404 [] rfl (by decide) rfl
  exact ⟨rfl, h.1, h.2.2.2.1⟩

/-- Claim C7: cache storage and lookup use the decimal string form of
the integer topic id: 3365 is looked up (and skipped when found) under
the key "3365", and a resolved 3365 is stored under the key "3365". -/
theorem c7_key_stringification (net : Nat → NetResult) (st : RunState) (v u : String) :
    toString (3365 : Nat) = "3365" ∧
    (st.cache.lookup "3365" = some v → step net st 3365 = (none, st)) ∧
    (st.cache.lookup "3365" = none → (scrape_image net 3365).1 = .ok (some u) →
      u ≠ "" → (step net st 3365).2.cache = st.cache ++ [("3365", u)]) := by
  have hts : toString (3365 : Nat) = "3365" := rfl
  refine ⟨hts, fun h => ?_, fun h hscr hu => ?_⟩
  · exact step_cached net (by rw [hts, h]; rfl)
  · have h' : st.cache.lookup (toString 3365) = none := by rw [hts]; exact h
    rw [step_resolved net h' hscr hu, hts]

/-- Witness for C7: skipping on the string key and storing under it. -/
theorem c7_key_stringification_witness :
    toString (3365 : Nat) = "3365" ∧
    step netOne (initState [("3365", "seen")]) 3365 = (none, initState [("3365", "seen")]) ∧
    (step netOne (initState []) 3365).2.cache =
      [] ++ [("3365", "https://cdn.example/img.png")] := by
  refine ⟨(c7_key_stringification netOne (initState []) "seen" "u").1, ?_, ?_⟩
  · exact (c7_key_stringification netOne (initState [("3365", "seen")]) "seen" "u").2.1
      (by decide)
  · exact (c7_key_stringification netOne (initState []) "seen"
      "https://cdn.example/img.png").2.2 rfl rfl (by decide)

/-- Claim C8: a cached identifier is skipped with no sleep and no state
change at all; a non-cached identifier whose fetch produced a response
is charged exactly one pacing delay, whether the status or the
extraction succeeded or failed. -/
theorem c8_pacing (net : Nat → NetResult) (st : RunState)
    (topic_id status : Nat) (body : Markup) :
    ((st.cache.lookup (toString topic_id)).isSome = true →
      step net st topic_id = (none, st)) ∧
    (st.cache.lookup (toString topic_id) = none →
      net topic_id = NetResult.response status body →
      (step net st topic_id).1 = none ∧
      (step net st topic_id).2.sleeps = st.sleeps + DELAY_SECONDS) := by
  refine ⟨fun h => step_cached net h, fun hc hnet => ?_⟩
  rcases scrape_response_ok net topic_id status body hnet with ⟨r, hscr⟩
  cases r with
  | none =>
    rw [step_unresolved net hc (Or.inl hscr)]
    exact ⟨rfl, rfl⟩
  | some u =>
    by_cases hu : u = ""
    · subst hu
      rw [step_unresolved net hc (Or.inr hscr)]
      exact ⟨rfl, rfl⟩
    · rw [step_resolved net hc hscr hu]
      exact ⟨rfl, rfl⟩

/-- Witness for C8: a cache hit sleeps nothing; a 404 identifier is
charged one delay unit. -/
theorem c8_pacing_witness :
    step netOne (initState [("3365", "seen")]) 3365 = (none, initState [("3365", "seen")]) ∧
    (step netOne (initState []) 3359).1 = none ∧
    (step netOne (initState []) 3359).2.sleeps = 0 + DELAY_SECONDS := by
  have h2 := (c8_pacing netOne (initState []) 3359 404 []).2 rfl rfl
  exact ⟨(c8_pacing netOne (initState [("3365", "seen")]) 3365 200 pageBoth).1 (by decide),
         h2.1, h2.2⟩

/-- Claim C9: extraction never hands back an empty string, and every
binding of the cache after a run either was already in the loaded cache
or has a non-empty value — no key is ever mapped to the empty string
during a run. -/
theorem c9_values_nonempty (net : Nat → NetResult) (c : Cache) :
    (∀ soup : Markup, extract soup ≠ some "") ∧
    (∀ k v, ((runOnce net c).2.cache).lookup k = some v →
      c.lookup k = some v ∨ v ≠ "") := by
  refine ⟨extract_ne_empty, fun k v h => ?_⟩
  exact runIds_values net TOPIC_IDS (initState c) c (fun k' v' h' => Or.inl h') k v h

/-- Witness for C9 at a concrete run. -/
theorem c9_values_nonempty_witness :
    extract pageBoth ≠ some "" ∧
    (([] : Cache).lookup "3365" = some "https://cdn.example/img.png" ∨
      "https://cdn.example/img.png" ≠ "") :=
  ⟨(c9_values_nonempty netOne []).1 pageBoth,
   (c9_values_nonempty netOne []).2 "3365" "https://cdn.example/img.png" (by decide)⟩

/-- Claim C10: a binding of the loaded cache whose key is not the string
form of any configured topic id is present unchanged in every cache
file rewritten during the run. -/
theorem c10_frame (net : Nat → NetResult) (c : Cache) (k v : String) (saved : Cache)
    (hk : ∀ i ∈ TOPIC_IDS, toString i ≠ k)
    (hv : c.lookup k = some v)
    (hsaved : saved ∈ (runOnce net c).2.savedFiles) :
    saved.lookup k = some v := by
  rcases runIds_savedFiles net TOPIC_IDS (initState c) saved hsaved with hmem | hext
  · exact absurd hmem (List.not_mem_nil saved)
  · exact hext k v hv

/-- Witness for C10: a foreign key survives in the one file the concrete
run writes. -/
theorem c10_frame_witness :
    (∀ i ∈ TOPIC_IDS, toString i ≠ "999999") ∧
    ([("999999", "http://old")] : Cache).lookup "999999" = some "http://old" ∧
    [("999999", "http://old"), ("3365", "https://cdn.example/img.png")] ∈
      (runOnce netOne [("999999", "http://old")]).2.savedFiles ∧
    ([("999999", "http://old"), ("3365", "https://cdn.example/img.png")] : Cache).lookup
      "999999" = some "http://old" :=
  ⟨by decide, by decide, by decide,
   c10_frame netOne [("999999", "http://old")] "999999" "http://old"
     [("999999", "http://old"), ("3365", "https://cdn.example/img.png")]
     (by decide) (by decide) (by decide)⟩

end Scraper
